import Mathlib

/-!
Verification of the Parrot sms-proxy webhook fan-out daemon.

The definitions below are a shallow embedding of the Go sources:
- the webhook ingress handler and dedup cache (webhook.go:
  MessageCache.IsSeenAndMark, CreateWebhookHandler, FilterByEvent),
- the subscriber registry (client.go: ClientManager.Register,
  ClientManager.prune),
- the allowlist store (AllowlistManager.AddNumber, GetRing),
- the webhook reconciler (server.go: RepairWebhooks) and
- the admin boundary middleware (server.go: PrivateIPOnlyMiddleware).

Go maps are modelled as association lists with at most one binding per
key (lookup takes the first binding; insertion erases the old binding).
Go time.Time instants are modelled as integers (seconds); t1.Before(t2)
is t1 < t2 and t.Add(-60s) is t - 60.  Event names are ASCII, so Go's
byte length and Lean's character length agree on them.
-/

namespace Parrot

/-! ### Association-list model of Go maps -/

def alookup {α : Type} (k : String) : List (String × α) → Option α
  | [] => none
  | (k', v) :: m => if k' = k then some v else alookup k m

def aerase {α : Type} (k : String) : List (String × α) → List (String × α)
  | [] => []
  | (k', v) :: m => if k' = k then aerase k m else (k', v) :: aerase k m

def ainsert {α : Type} (k : String) (v : α) (m : List (String × α)) :
    List (String × α) :=
  (k, v) :: aerase k m

/-! ### Subscriber registry (client.go)

The Client struct combines the fields written by the register route in
server.go (ID, WebhookURL, Ring and the four kind-subscription flags)
with the timestamps managed by ClientManager (RegisteredAt, LastSeen).
-/

structure Client where
  id : String
  webhookURL : String
  ring : String
  smsReceived : Bool
  smsSent : Bool
  smsDelivered : Bool
  smsFailed : Bool
  registeredAt : Int
  lastSeen : Int
deriving Repr, DecidableEq

/-- ClientManager.Register: set LastSeen to now; preserve RegisteredAt when
the id is already registered, otherwise set it to now; store under the id. -/
def register (now : Int) (id : String) (c : Client)
    (m : List (String × Client)) : List (String × Client) :=
  let c1 := { c with lastSeen := now }
  let c2 :=
    match alookup id m with
    | some existing => { c1 with registeredAt := existing.registeredAt }
    | none => { c1 with registeredAt := now }
  ainsert id c2 m

/-- ClientManager.prune: delete every client whose LastSeen is before
now - 60 s (time.Now().Add(-60 * time.Second), LastSeen.Before(cutoff)). -/
def prune (now : Int) (m : List (String × Client)) : List (String × Client) :=
  m.filter (fun p => !(p.2.lastSeen < now - 60))

/-! ### Dedup cache (webhook.go, MessageCache) -/

/-- MessageCache.IsSeenAndMark: if the key is present return true and leave
the cache unchanged, otherwise record the key with the current time and
return false. -/
def isSeenAndMark (now : Int) (key : String) (seen : List (String × Int)) :
    Bool × List (String × Int) :=
  match alookup key seen with
  | some _ => (true, seen)
  | none => (false, (key, now) :: seen)

/-! ### Allowlist store (AllowlistManager) -/

/-- The durable sqlite table and the in-memory mirror.  AddNumber writes
both; GetRing reads only the mirror. -/
structure AllowlistState where
  db : List (String × String)
  numbers : List (String × String)
deriving Repr, DecidableEq

/-- AllowlistManager.GetRing: map read of the mirror; Go returns the zero
value, the empty string, when the number is absent. -/
def getRing (numbers : List (String × String)) (phoneNumber : String) :
    String :=
  (alookup phoneNumber numbers).getD ""

/-- AllowlistManager.AddNumber.  The boolean persistOk stands for the
outcome of the INSERT on the durable store; a failed SQL statement leaves
the table unchanged.  The first component is the returned error (none on
success); the second is the state after the call. -/
def addNumber (st : AllowlistState) (phoneNumber ring : String)
    (persistOk : Bool) : Option String × AllowlistState :=
  match alookup phoneNumber st.numbers with
  | some existingRing =>
      if existingRing = ring then
        (some ("number " ++ phoneNumber ++ " is already assigned to ring "
          ++ ring), st)
      else
        (some ("number " ++ phoneNumber ++ " is already assigned to ring "
          ++ existingRing ++ ", cannot reassign to " ++ ring), st)
  | none =>
      if persistOk then
        (none, { db := ainsert phoneNumber ring st.db,
                 numbers := ainsert phoneNumber ring st.numbers })
      else
        (some "database error", st)

/-! ### Webhook ingress handler (webhook.go, CreateWebhookHandler) -/

/-- The four short event kinds the ingress routes are mounted for
(server.go, SetupWebhookRouter). -/
def webhookEventKinds : List String := ["received", "sent", "delivered", "failed"]

/-- FilterByEvent's switch: which subscription flag the kind selects;
unknown kinds subscribe nobody. -/
def subscribesTo (c : Client) (eventType : String) : Bool :=
  if eventType = "received" then c.smsReceived
  else if eventType = "sent" then c.smsSent
  else if eventType = "delivered" then c.smsDelivered
  else if eventType = "failed" then c.smsFailed
  else false

/-- FilterByEvent: keep the clients subscribed to the kind. -/
def filterByEvent (clients : List Client) (eventType : String) :
    List Client :=
  clients.filter (fun c => subscribesTo c eventType)

/-- Outcome of the body read and the two JSON parsing stages of the
handler.  In the parsed case the field holds the result of the
kind-specific payload unmarshal: none on unmarshal error, otherwise the
extracted (messageId, phoneNumber). -/
inductive BodyParse where
  | readError : BodyParse
  | envelopeError : BodyParse
  | parsed : Option (String × String) → BodyParse
deriving Repr, DecidableEq

/-- Observable outcome of one handler invocation: HTTP status and body,
whether the dedup branch returned early, the dedup cache afterwards, and
the clients a forwarder is launched for. -/
structure HandlerResult where
  status : Nat
  body : String
  suppressed : Bool
  cache : List (String × Int)
  forwarded : List Client
deriving Repr, DecidableEq

/-- The handler body after the payload parse has bound messageID and
phoneNumber: dedup check, 200 OK acknowledgement, event filter, allowlist
ring filter, forwarding. -/
def handleParsedEvent (eventType : String) (now : Int)
    (messageID phoneNumber : String) (cache : List (String × Int))
    (clients : List Client) (allowlist : List (String × String)) :
    HandlerResult :=
  let step :=
    if messageID ≠ "" then
      isSeenAndMark now (eventType ++ "-" ++ messageID) cache
    else
      (false, cache)
  match step with
  | (true, cache') =>
      { status := 200, body := "OK", suppressed := true, cache := cache',
        forwarded := [] }
  | (false, cache') =>
      let filtered := filterByEvent clients eventType
      let targetRing := getRing allowlist phoneNumber
      if targetRing = "" then
        { status := 200, body := "OK", suppressed := false, cache := cache',
          forwarded := [] }
      else
        { status := 200, body := "OK", suppressed := false, cache := cache',
          forwarded := filtered.filter (fun c => c.ring == targetRing) }

/-- CreateWebhookHandler's returned handler.  A failed body read or
envelope parse answers 400.  For the four known kinds a failed payload
unmarshal answers 400, otherwise the extracted ids flow on; the switch's
default case leaves messageID and phoneNumber as the empty string. -/
def webhookHandler (eventType : String) (now : Int) (parse : BodyParse)
    (cache : List (String × Int)) (clients : List Client)
    (allowlist : List (String × String)) : HandlerResult :=
  match parse with
  | .readError =>
      { status := 400, body := "", suppressed := false, cache := cache,
        forwarded := [] }
  | .envelopeError =>
      { status := 400, body := "", suppressed := false, cache := cache,
        forwarded := [] }
  | .parsed payloadParse =>
      if eventType ∈ webhookEventKinds then
        match payloadParse with
        | none =>
            { status := 400, body := "", suppressed := false, cache := cache,
              forwarded := [] }
        | some (messageID, phoneNumber) =>
            handleParsedEvent eventType now messageID phoneNumber cache
              clients allowlist
      else
        handleParsedEvent eventType now "" "" cache clients allowlist

/-- Spec-side characterization of fan-out: the subscribers of the snapshot
whose flag for the kind is set and whose ring equals the allowlist ring of
the sender; nobody when the lookup returns the empty sentinel. -/
def matchingSubscribers (clients : List Client) (eventType : String)
    (allowlist : List (String × String)) (phoneNumber : String) :
    List Client :=
  let ring := getRing allowlist phoneNumber
  if ring = "" then []
  else clients.filter (fun c => subscribesTo c eventType && c.ring == ring)

/-! ### Webhook reconciler (server.go, RepairWebhooks) -/

/-- A registration entry as returned by the gateway's webhook list. -/
structure GatewayWebhook where
  id : String
  url : String
  event : String
deriving Repr, DecidableEq

/-- The four wire event names (server.go, webhookEvents). -/
def smsEventNames : List String :=
  ["sms:received", "sms:sent", "sms:delivered", "sms:failed"]

/-- Go's slice expression s[4:]: defined only when the length is at least
4, otherwise the program panics. -/
def goDrop4 (s : String) : Option String :=
  if 4 ≤ s.length then some (s.drop 4) else none

/-- The callback URL RepairWebhooks expects for an event path. -/
def expectedCallbackURL (port : String) (eventPath : String) : String :=
  "http://127.0.0.1:" ++ port ++ "/webhook/" ++ eventPath

/-- First loop of RepairWebhooks over the listed registrations: an entry
whose URL equals the URL derived from its own event suffix is kept (and
its event marked present); any other entry is deleted.  none when the
suffix slice Event[4:] is out of bounds. -/
def repairKeep (port : String) :
    List GatewayWebhook → Option (List GatewayWebhook)
  | [] => some []
  | w :: ws => do
      let path ← goDrop4 w.event
      let rest ← repairKeep port ws
      if w.url = expectedCallbackURL port path then pure (w :: rest)
      else pure rest

/-- One RepairWebhooks tick, all gateway calls succeeding: keep or delete
each listed registration, then register the expected entry for every event
name not marked present.  The gateway-assigned id of a fresh registration
is modelled as the empty string. -/
def repairWebhooks (port : String) (ws : List GatewayWebhook) :
    Option (List GatewayWebhook) := do
  let kept ← repairKeep port ws
  let marked := kept.map (fun w => w.event)
  let missing := smsEventNames.filter (fun e => !(marked.contains e))
  pure (kept ++ missing.map (fun e =>
    { id := "", url := expectedCallbackURL port (e.drop 4), event := e }))

/-! ### Admin boundary middleware (server.go, PrivateIPOnlyMiddleware) -/

structure HttpResponse where
  status : Nat
  body : String
deriving Repr, DecidableEq

/-- PrivateIPOnlyMiddleware: when the connection carries a TCP local
address (localAddr = some ip) that differs from the configured private IP,
answer 403 Forbidden (http.Error appends a newline) without running the
next handler; otherwise pass the request and the state to the next
handler. -/
def privateIPOnlyMiddleware {σ : Type} (privateIP : String)
    (localAddr : Option String) (next : σ → σ × HttpResponse) (s : σ) :
    σ × HttpResponse :=
  match localAddr with
  | some ip =>
      if ip ≠ privateIP then (s, { status := 403, body := "Forbidden\n" })
      else next s
  | none => next s

end Parrot

namespace Parrot

/-! ### Helper lemmas on the association-list operations -/

theorem alookup_aerase_of_ne {α : Type} (k k' : String) (m : List (String × α))
    (h : k' ≠ k) : alookup k' (aerase k m) = alookup k' m := by
  induction m with
  | nil => rfl
  | cons p m ih =>
      obtain ⟨k'', v⟩ := p
      by_cases h1 : k'' = k
      · subst h1
        simp [aerase, alookup, Ne.symm h, ih]
      · by_cases h2 : k'' = k'
        · subst h2
          simp [aerase, alookup, h1]
        · simp [aerase, alookup, h1, h2, ih]

theorem alookup_ainsert_self {α : Type} (k : String) (v : α)
    (m : List (String × α)) : alookup k (ainsert k v m) = some v := by
  simp [ainsert, alookup]

theorem alookup_ainsert_of_ne {α : Type} (k k' : String) (v : α)
    (m : List (String × α)) (h : k' ≠ k) :
    alookup k' (ainsert k v m) = alookup k' m := by
  simp [ainsert, alookup, Ne.symm h, alookup_aerase_of_ne k k' m h]

end Parrot

namespace Parrot

/-! ### C4: allowlist add is immutable and failure-atomic -/

/-- C4.  Adding a number that is already in the allowlist mirror returns an
already-assigned error no matter which ring is requested, a persistence
failure also returns an error, and whenever AddNumber returns an error the
durable store and the in-memory mirror are both exactly as before the
call. -/
theorem addNumber_error_and_state :
    ∀ (st : AllowlistState) (phone ring : String) (ok : Bool),
    ((addNumber st phone ring ok).1 =
      match alookup phone st.numbers with
      | some existingRing =>
          if existingRing = ring then
            some ("number " ++ phone ++ " is already assigned to ring "
              ++ ring)
          else
            some ("number " ++ phone ++ " is already assigned to ring "
              ++ existingRing ++ ", cannot reassign to " ++ ring)
      | none => if ok then none else some "database error")
    ∧ ((addNumber st phone ring ok).2 =
        if (addNumber st phone ring ok).1.isSome then st
        else { db := ainsert phone ring st.db,
               numbers := ainsert phone ring st.numbers }) := by
  intro st phone ring ok
  constructor
  · unfold addNumber
    cases h : alookup phone st.numbers with
    | none => by_cases hok : ok <;> simp [hok]
    | some r => by_cases hr : r = ring <;> simp [hr]
  · unfold addNumber
    cases h : alookup phone st.numbers with
    | none => by_cases hok : ok <;> simp [hok]
    | some r => by_cases hr : r = ring <;> simp [hr]

/-! ### C7: the pruner removes exactly the stale subscribers -/

/-- C7.  A pruner pass at time now keeps a subscriber entry exactly when it
was present before and its last_seen is at most 60 seconds old, and every
entry that survives the pass satisfies now - last_seen ≤ 60. -/
theorem prune_removes_exactly_stale :
    ∀ (now : Int) (m : List (String × Client)) (id : String) (c : Client),
    ((id, c) ∈ prune now m ↔ ((id, c) ∈ m ∧ now - c.lastSeen ≤ 60))
    ∧ ((prune now m).all (fun p => decide (now - p.2.lastSeen ≤ 60)) = true) := by
  intro now m id c
  constructor
  · unfold prune
    rw [List.mem_filter]
    constructor
    · rintro ⟨hm, hp⟩
      refine ⟨hm, ?_⟩
      simp only [Bool.not_eq_true', decide_eq_false_iff_not, not_lt] at hp
      omega
    · rintro ⟨hm, hle⟩
      refine ⟨hm, ?_⟩
      simp only [Bool.not_eq_true', decide_eq_false_iff_not, not_lt]
      omega
  · rw [List.all_eq_true]
    intro p hp
    unfold prune at hp
    rw [List.mem_filter] at hp
    have := hp.2
    simp only [Bool.not_eq_true', decide_eq_false_iff_not, not_lt] at this
    simp only [decide_eq_true_eq]
    omega

/-- C7 witness: a concrete pass at t = 100 keeps the subscriber last seen
at t = 40 and drops everything stale. -/
theorem prune_removes_exactly_stale_witness :
    ((("B", (⟨"B", "http://b", "ppe", true, false, false, false, 0, 40⟩ : Client))
        ∈ prune 100
          [("B", (⟨"B", "http://b", "ppe", true, false, false, false, 0, 40⟩ : Client))])
      ↔ ((("B", (⟨"B", "http://b", "ppe", true, false, false, false, 0, 40⟩ : Client))
            ∈ [("B", (⟨"B", "http://b", "ppe", true, false, false, false, 0, 40⟩ : Client))])
          ∧ (100 : Int) - 40 ≤ 60)) := by
  exact (prune_removes_exactly_stale 100
    [("B", (⟨"B", "http://b", "ppe", true, false, false, false, 0, 40⟩ : Client))]
    "B" ⟨"B", "http://b", "ppe", true, false, false, false, 0, 40⟩).1

/-! ### C9: the admin boundary filter -/

/-- C9.  A request arriving on a local interface address different from the
configured private IP is answered 403 Forbidden and the wrapped route
handler never runs, so the state is returned untouched, whatever the
handler would have done. -/
theorem admin_rejects_foreign_local_ip :
    ∀ (σ : Type) (next : σ → σ × HttpResponse) (s : σ)
      (privateIP ip : String),
    ip ≠ privateIP →
    privateIPOnlyMiddleware privateIP (some ip) next s
      = (s, { status := 403, body := "Forbidden\n" }) := by
  intro σ next s privateIP ip h
  simp [privateIPOnlyMiddleware, h]

/-- C9 witness: the spec's S6 scenario, private_ip 10.0.0.5 and local
address 192.168.1.5, with a handler that would have changed the state. -/
theorem admin_rejects_foreign_local_ip_witness :
    privateIPOnlyMiddleware "10.0.0.5" (some "192.168.1.5")
        (fun n : Nat => (n + 1, { status := 200, body := "ok" })) 0
      = (0, { status := 403, body := "Forbidden\n" }) :=
  admin_rejects_foreign_local_ip Nat
    (fun n : Nat => (n + 1, { status := 200, body := "ok" })) 0
    "10.0.0.5" "192.168.1.5" (by decide)

end Parrot

namespace Parrot

/-! ### Helper lemmas on the webhook handler -/

theorem matchingSubscribers_eq_filter (clients : List Client) (e : String)
    (allowlist : List (String × String)) (phone : String) :
    matchingSubscribers clients e allowlist phone =
      if getRing allowlist phone = "" then []
      else (filterByEvent clients e).filter
        (fun c => c.ring == getRing allowlist phone) := by
  unfold matchingSubscribers filterByEvent
  by_cases hr : getRing allowlist phone = ""
  · simp [hr]
  · simp [hr, List.filter_filter, Bool.and_comm]

theorem handleParsedEvent_suppressed (e : String) (now : Int)
    (mid phone : String) (cache : List (String × Int))
    (clients : List Client) (allowlist : List (String × String)) (t : Int)
    (hmid : mid ≠ "") (h : alookup (e ++ "-" ++ mid) cache = some t) :
    handleParsedEvent e now mid phone cache clients allowlist =
      { status := 200, body := "OK", suppressed := true, cache := cache,
        forwarded := [] } := by
  simp [handleParsedEvent, hmid, isSeenAndMark, h]

theorem handleParsedEvent_fanout (e : String) (now : Int)
    (mid phone : String) (cache : List (String × Int))
    (clients : List Client) (allowlist : List (String × String))
    (h : mid = "" ∨ alookup (e ++ "-" ++ mid) cache = none) :
    handleParsedEvent e now mid phone cache clients allowlist =
      { status := 200, body := "OK", suppressed := false,
        cache := if mid = "" then cache else (e ++ "-" ++ mid, now) :: cache,
        forwarded := matchingSubscribers clients e allowlist phone } := by
  rw [matchingSubscribers_eq_filter]
  by_cases hmid : mid = ""
  · subst hmid
    by_cases hr : getRing allowlist phone = "" <;>
      simp [handleParsedEvent, hr]
  · have hnone : alookup (e ++ "-" ++ mid) cache = none := by
      rcases h with h | h
      · exact absurd h hmid
      · exact h
    by_cases hr : getRing allowlist phone = "" <;>
      simp [handleParsedEvent, hmid, isSeenAndMark, hnone, hr]

theorem webhookHandler_parsed (e : String) (now : Int) (mid phone : String)
    (cache : List (String × Int)) (clients : List Client)
    (allowlist : List (String × String)) (hk : e ∈ webhookEventKinds) :
    webhookHandler e now (.parsed (some (mid, phone))) cache clients allowlist
      = handleParsedEvent e now mid phone cache clients allowlist := by
  simp [webhookHandler, hk]

theorem handleParsedEvent_status (e : String) (now : Int)
    (mid phone : String) (cache : List (String × Int))
    (clients : List Client) (allowlist : List (String × String)) :
    (handleParsedEvent e now mid phone cache clients allowlist).status
      = 200 := by
  unfold handleParsedEvent
  rcases hstep : (if mid ≠ "" then
      isSeenAndMark now (e ++ "-" ++ mid) cache else (false, cache))
    with ⟨b, cache'⟩
  cases b
  · simp [hstep]
    split <;> rfl
  · simp [hstep]

theorem handleParsedEvent_unlisted (e : String) (now : Int)
    (mid phone : String) (cache : List (String × Int))
    (clients : List Client) (allowlist : List (String × String))
    (h : alookup phone allowlist = none) :
    (handleParsedEvent e now mid phone cache clients allowlist).forwarded
      = [] := by
  have hr : getRing allowlist phone = "" := by simp [getRing, h]
  unfold handleParsedEvent
  rcases hstep : (if mid ≠ "" then
      isSeenAndMark now (e ++ "-" ++ mid) cache else (false, cache))
    with ⟨b, cache'⟩
  cases b <;> simp [hstep, hr]

theorem dedupKey_ne_of_kind_ne (k1 k2 mid : String) (h : k1 ≠ k2) :
    (k1 ++ "-" ++ mid) ≠ (k2 ++ "-" ++ mid) := by
  intro he
  apply h
  have hd : k1.data ++ ("-".data ++ mid.data)
      = k2.data ++ ("-".data ++ mid.data) := by
    have hc := congrArg String.data he
    simpa [String.data_append, List.append_assoc] using hc
  have hdd : k1.data = k2.data := (List.append_left_inj _).mp hd
  exact String.ext hdd

end Parrot

namespace Parrot

/-! ### C1: dedup forwards exactly the first of repeated (kind, message) -/

/-- C1.  For an event that parses with a non-empty message id: when the
(kind, message id) pair is already in the dedup cache the handler answers
200 with body OK, changes nothing and launches no forwarder; otherwise it
marks the pair and proceeds to fan-out.  Consequently, once a first event
has marked the pair, a second event with the same kind and message id is
acknowledged but not forwarded. -/
theorem dedup_suppresses_repeat_kind_message :
    ∀ (k : String) (now1 now2 : Int) (mid phone1 phone2 : String)
      (cache : List (String × Int)) (clients : List Client)
      (allowlist : List (String × String)),
    k ∈ webhookEventKinds → mid ≠ "" →
    (webhookHandler k now1 (.parsed (some (mid, phone1))) cache clients
        allowlist
      = if (alookup (k ++ "-" ++ mid) cache).isSome then
          { status := 200, body := "OK", suppressed := true, cache := cache,
            forwarded := [] }
        else
          { status := 200, body := "OK", suppressed := false,
            cache := (k ++ "-" ++ mid, now1) :: cache,
            forwarded := matchingSubscribers clients k allowlist phone1 })
    ∧ (webhookHandler k now2 (.parsed (some (mid, phone2)))
        ((k ++ "-" ++ mid, now1) :: cache) clients allowlist
      = { status := 200, body := "OK", suppressed := true,
          cache := (k ++ "-" ++ mid, now1) :: cache, forwarded := [] }) := by
  intro k now1 now2 mid phone1 phone2 cache clients allowlist hk hmid
  constructor
  · rw [webhookHandler_parsed k now1 mid phone1 cache clients allowlist hk]
    cases h : alookup (k ++ "-" ++ mid) cache with
    | some t =>
        rw [handleParsedEvent_suppressed k now1 mid phone1 cache clients
          allowlist t hmid h]
        simp [h]
    | none =>
        rw [handleParsedEvent_fanout k now1 mid phone1 cache clients
          allowlist (Or.inr h)]
        simp [h, hmid]
  · rw [webhookHandler_parsed k now2 mid phone2 _ clients allowlist hk]
    exact handleParsedEvent_suppressed k now2 mid phone2 _ clients allowlist
      now1 hmid (by simp [alookup])

/-- C1 witness: the spec's S3 scenario, two Delivered events with message
id m3 starting from an empty cache. -/
theorem dedup_suppresses_repeat_kind_message_witness :
    (("delivered" : String) ∈ webhookEventKinds)
    ∧ (webhookHandler "delivered" 1 (.parsed (some ("m3", "+15551112222")))
        [] [] [("+15551112222", "prod")]
      = if (alookup ("delivered" ++ "-" ++ "m3")
            ([] : List (String × Int))).isSome then
          { status := 200, body := "OK", suppressed := true, cache := [],
            forwarded := [] }
        else
          { status := 200, body := "OK", suppressed := false,
            cache := [("delivered" ++ "-" ++ "m3", 1)],
            forwarded := matchingSubscribers [] "delivered"
              [("+15551112222", "prod")] "+15551112222" })
    ∧ (webhookHandler "delivered" 2 (.parsed (some ("m3", "+15551112222")))
        [("delivered" ++ "-" ++ "m3", 1)] [] [("+15551112222", "prod")]
      = { status := 200, body := "OK", suppressed := true,
          cache := [("delivered" ++ "-" ++ "m3", 1)], forwarded := [] }) :=
  ⟨by decide,
   (dedup_suppresses_repeat_kind_message "delivered" 1 2 "m3" "+15551112222"
     "+15551112222" [] [] [("+15551112222", "prod")] (by decide)
     (by decide)).1,
   (dedup_suppresses_repeat_kind_message "delivered" 1 2 "m3" "+15551112222"
     "+15551112222" [] [] [("+15551112222", "prod")] (by decide)
     (by decide)).2⟩

/-! ### C2: fan-out recipients are exactly the kind- and ring-matched
subscribers -/

/-- C2.  For a parsed event that is not suppressed by dedup, the clients a
forwarder is launched for are exactly the snapshot's subscribers whose
flag for the event's kind is set and whose ring equals the allowlist ring
of the sender; and whenever the sender is absent from the allowlist (the
lookup returns the empty sentinel) nobody receives the event, whatever the
cache state. -/
theorem fanout_recipients_exact :
    ∀ (k : String) (now now2 : Int) (mid mid2 phone phoneAbsent : String)
      (cache cache2 : List (String × Int)) (clients : List Client)
      (allowlist : List (String × String)),
    k ∈ webhookEventKinds →
    (mid = "" ∨ alookup (k ++ "-" ++ mid) cache = none) →
    alookup phoneAbsent allowlist = none →
    ((webhookHandler k now (.parsed (some (mid, phone))) cache clients
        allowlist).forwarded
      = matchingSubscribers clients k allowlist phone)
    ∧ ((webhookHandler k now2 (.parsed (some (mid2, phoneAbsent))) cache2
        clients allowlist).forwarded = []) := by
  intro k now now2 mid mid2 phone phoneAbsent cache cache2 clients allowlist
    hk hfresh habsent
  constructor
  · rw [webhookHandler_parsed k now mid phone cache clients allowlist hk,
      handleParsedEvent_fanout k now mid phone cache clients allowlist
        hfresh]
  · rw [webhookHandler_parsed k now2 mid2 phoneAbsent cache2 clients
      allowlist hk]
    exact handleParsedEvent_unlisted k now2 mid2 phoneAbsent cache2 clients
      allowlist habsent

/-- C2 witness: the spec's S1 scenario; the prod subscriber receives the
Received event of the prod sender and the ppe subscriber does not, while a
sender outside the allowlist reaches nobody. -/
theorem fanout_recipients_exact_witness :
    ((webhookHandler "received" 1 (.parsed (some ("m1", "+15551112222"))) []
        [(⟨"A", "http://a", "prod", true, false, false, false, 0, 0⟩ : Client),
         (⟨"B", "http://b", "ppe", true, false, false, false, 0, 0⟩ : Client)]
        [("+15551112222", "prod"), ("+15553334444", "ppe")]).forwarded
      = matchingSubscribers
          [(⟨"A", "http://a", "prod", true, false, false, false, 0, 0⟩ : Client),
           (⟨"B", "http://b", "ppe", true, false, false, false, 0, 0⟩ : Client)]
          "received" [("+15551112222", "prod"), ("+15553334444", "ppe")]
          "+15551112222")
    ∧ ((webhookHandler "received" 2 (.parsed (some ("m2", "+15559999999")))
        [] [(⟨"A", "http://a", "prod", true, false, false, false, 0, 0⟩ : Client),
            (⟨"B", "http://b", "ppe", true, false, false, false, 0, 0⟩ : Client)]
        [("+15551112222", "prod"), ("+15553334444", "ppe")]).forwarded
      = []) :=
  fanout_recipients_exact "received" 1 2 "m1" "m2" "+15551112222"
    "+15559999999" [] []
    [(⟨"A", "http://a", "prod", true, false, false, false, 0, 0⟩ : Client),
     (⟨"B", "http://b", "ppe", true, false, false, false, 0, 0⟩ : Client)]
    [("+15551112222", "prod"), ("+15553334444", "ppe")] (by decide)
    (Or.inr (by decide)) (by decide)

end Parrot

namespace Parrot

/-! ### C6: events of different kinds are never deduplicated against each
other -/

/-- C6.  Two events with the same non-empty message id but different kinds
from the closed kind set have different dedup keys, so processing the
first does not suppress the second: both proceed to fan-out and each is
forwarded to its kind- and ring-matched subscribers. -/
theorem cross_kind_no_dedup :
    ∀ (k1 k2 : String) (now1 now2 : Int) (mid phone1 phone2 : String)
      (cache : List (String × Int)) (clients : List Client)
      (allowlist : List (String × String)),
    k1 ∈ webhookEventKinds → k2 ∈ webhookEventKinds → k1 ≠ k2 → mid ≠ "" →
    alookup (k1 ++ "-" ++ mid) cache = none →
    alookup (k2 ++ "-" ++ mid) cache = none →
    ((k1 ++ "-" ++ mid) ≠ (k2 ++ "-" ++ mid))
    ∧ (webhookHandler k1 now1 (.parsed (some (mid, phone1))) cache clients
        allowlist
      = { status := 200, body := "OK", suppressed := false,
          cache := (k1 ++ "-" ++ mid, now1) :: cache,
          forwarded := matchingSubscribers clients k1 allowlist phone1 })
    ∧ (webhookHandler k2 now2 (.parsed (some (mid, phone2)))
        ((k1 ++ "-" ++ mid, now1) :: cache) clients allowlist
      = { status := 200, body := "OK", suppressed := false,
          cache := (k2 ++ "-" ++ mid, now2) :: (k1 ++ "-" ++ mid, now1)
            :: cache,
          forwarded := matchingSubscribers clients k2 allowlist phone2 }) := by
  intro k1 k2 now1 now2 mid phone1 phone2 cache clients allowlist hk1 hk2
    hne hmid h1 h2
  have hkey : (k1 ++ "-" ++ mid) ≠ (k2 ++ "-" ++ mid) :=
    dedupKey_ne_of_kind_ne k1 k2 mid hne
  refine ⟨hkey, ?_, ?_⟩
  · rw [webhookHandler_parsed k1 now1 mid phone1 cache clients allowlist hk1,
      handleParsedEvent_fanout k1 now1 mid phone1 cache clients allowlist
        (Or.inr h1)]
    simp [hmid]
  · have h2' : alookup (k2 ++ "-" ++ mid)
        ((k1 ++ "-" ++ mid, now1) :: cache) = none := by
      simp only [alookup]
      rw [if_neg hkey]
      exact h2
    rw [webhookHandler_parsed k2 now2 mid phone2 _ clients allowlist hk2,
      handleParsedEvent_fanout k2 now2 mid phone2 _ clients allowlist
        (Or.inr h2')]
    simp [hmid]

/-- C6 witness: the spec's S2 scenario, a Sent then a Delivered event with
the shared message id m3, both reaching their matched subscriber. -/
theorem cross_kind_no_dedup_witness :
    ((("sent" : String) ++ "-" ++ "m3") ≠ (("delivered" : String) ++ "-" ++ "m3"))
    ∧ (webhookHandler "sent" 1 (.parsed (some ("m3", "+15551234567"))) []
        [(⟨"A", "http://a", "prod", false, true, true, false, 0, 0⟩ : Client)]
        [("+15551234567", "prod")]
      = { status := 200, body := "OK", suppressed := false,
          cache := [("sent" ++ "-" ++ "m3", 1)],
          forwarded := matchingSubscribers
            [(⟨"A", "http://a", "prod", false, true, true, false, 0, 0⟩ : Client)]
            "sent" [("+15551234567", "prod")] "+15551234567" })
    ∧ (webhookHandler "delivered" 2 (.parsed (some ("m3", "+15551234567")))
        [("sent" ++ "-" ++ "m3", 1)]
        [(⟨"A", "http://a", "prod", false, true, true, false, 0, 0⟩ : Client)]
        [("+15551234567", "prod")]
      = { status := 200, body := "OK", suppressed := false,
          cache := [("delivered" ++ "-" ++ "m3", 2),
            ("sent" ++ "-" ++ "m3", 1)],
          forwarded := matchingSubscribers
            [(⟨"A", "http://a", "prod", false, true, true, false, 0, 0⟩ : Client)]
            "delivered" [("+15551234567", "prod")] "+15551234567" }) :=
  cross_kind_no_dedup "sent" "delivered" 1 2 "m3" "+15551234567"
    "+15551234567" [] [(⟨"A", "http://a", "prod", false, true, true, false, 0, 0⟩ : Client)]
    [("+15551234567", "prod")] (by decide) (by decide) (by decide)
    (by decide) (by decide) (by decide)

/-! ### C8: empty message_id or phone_number is not rejected -/

/-- C8 counterexample.  A Received event whose payload parses with an
empty message id and an empty phone number is answered 200, not the 400
the claim requires. -/
theorem empty_ids_not_rejected_counterexample :
    ((webhookHandler "received" 0 (.parsed (some ("", ""))) [] [] []).status
      = 200)
    ∧ ((webhookHandler "received" 0 (.parsed (some ("", ""))) [] [] []).status
      ≠ 400) := by
  constructor
  · rfl
  · decide

/-- C8 amended.  The handler performs no non-emptiness validation: every
event whose payload parses is answered 200 whatever its message id and
phone number; an event with an empty message id bypasses the dedup cache
entirely, and when its sender is absent from the allowlist no subscriber
receives it. -/
theorem handler_accepts_empty_ids :
    ∀ (eventType : String) (now : Int) (cache : List (String × Int))
      (clients : List Client) (allowlist : List (String × String))
      (mid phone phoneAbsent : String),
    eventType ∈ webhookEventKinds →
    alookup phoneAbsent allowlist = none →
    ((webhookHandler eventType now (.parsed (some (mid, phone))) cache
        clients allowlist).status = 200)
    ∧ (webhookHandler eventType now (.parsed (some ("", phoneAbsent))) cache
        clients allowlist
      = { status := 200, body := "OK", suppressed := false, cache := cache,
          forwarded := [] }) := by
  intro eventType now cache clients allowlist mid phone phoneAbsent hk
    habsent
  constructor
  · rw [webhookHandler_parsed eventType now mid phone cache clients
      allowlist hk]
    exact handleParsedEvent_status eventType now mid phone cache clients
      allowlist
  · rw [webhookHandler_parsed eventType now "" phoneAbsent cache clients
      allowlist hk,
      handleParsedEvent_fanout eventType now "" phoneAbsent cache clients
        allowlist (Or.inl rfl)]
    have hr : getRing allowlist phoneAbsent = "" := by
      simp [getRing, habsent]
    simp [matchingSubscribers_eq_filter, hr]

/-- C8 amended witness: a Received event with empty ids on an empty state
is accepted with 200 and forwarded to nobody. -/
theorem handler_accepts_empty_ids_witness :
    ((webhookHandler "received" 0 (.parsed (some ("x", "+15551112222"))) []
        [] []).status = 200)
    ∧ (webhookHandler "received" 0 (.parsed (some ("", ""))) [] [] []
      = { status := 200, body := "OK", suppressed := false, cache := [],
          forwarded := [] }) :=
  handler_accepts_empty_ids "received" 0 [] [] [] "x" "+15551112222" ""
    (by decide) (by decide)

end Parrot

namespace Parrot

/-! ### C5: re-registration preserves registered_at and refreshes
last_seen -/

theorem alookup_register_self (now : Int) (id : String) (c : Client)
    (m : List (String × Client)) :
    alookup id (register now id c m) =
      some { c with lastSeen := now,
                    registeredAt := match alookup id m with
                                    | some e => e.registeredAt
                                    | none => now } := by
  unfold register
  cases h : alookup id m <;> simp [h, alookup_ainsert_self]

theorem register_fold_lookup (id : String) (ops : List (Int × Client)) :
    ∀ (m : List (String × Client)) (c0 : Client),
    alookup id m = some c0 →
    List.Chain' (· ≤ ·) (c0.lastSeen :: ops.map Prod.fst) →
    ∃ c', alookup id (ops.foldl (fun acc p => register p.1 id p.2 acc) m)
        = some c'
      ∧ c'.registeredAt = c0.registeredAt ∧ c0.lastSeen ≤ c'.lastSeen := by
  induction ops with
  | nil =>
      intro m c0 h _
      exact ⟨c0, h, rfl, le_refl _⟩
  | cons p rest ih =>
      obtain ⟨t, c⟩ := p
      intro m c0 h hchain
      rw [List.map_cons, List.chain'_cons] at hchain
      obtain ⟨h1, h2⟩ := hchain
      have hstep : alookup id (register t id c m)
          = some { c with lastSeen := t,
                          registeredAt := c0.registeredAt } := by
        rw [alookup_register_self]
        simp [h]
      obtain ⟨c', hc', hreg, hle⟩ := ih (register t id c m)
        { c with lastSeen := t, registeredAt := c0.registeredAt } hstep
        (by simpa using h2)
      exact ⟨c', by simpa using hc', by rw [hreg],
        le_trans h1 (by simpa using hle)⟩

/-- C5.  Registering under an id stores the submitted record with
last_seen set to now and registered_at preserved from the existing entry
when the id exists (set to now when it does not); along any sequence of
re-registrations of one id at non-decreasing clock readings, registered_at
never changes and last_seen never decreases. -/
theorem register_preserves_registeredAt :
    ∀ (now : Int) (id : String) (c c0 : Client)
      (m m0 : List (String × Client)) (ops : List (Int × Client)),
    alookup id m0 = some c0 →
    List.Chain' (· ≤ ·) (c0.lastSeen :: ops.map Prod.fst) →
    (alookup id (register now id c m) =
      some { c with lastSeen := now,
                    registeredAt := match alookup id m with
                                    | some e => e.registeredAt
                                    | none => now })
    ∧ ((alookup id (ops.foldl (fun acc p => register p.1 id p.2 acc)
          m0)).map (fun c' => c'.registeredAt) = some c0.registeredAt)
    ∧ ((alookup id (ops.foldl (fun acc p => register p.1 id p.2 acc)
          m0)).map (fun c' => decide (c0.lastSeen ≤ c'.lastSeen))
        = some true) := by
  intro now id c c0 m m0 ops h0 hchain
  obtain ⟨c', hc', hreg, hle⟩ := register_fold_lookup id ops m0 c0 h0 hchain
  refine ⟨alookup_register_self now id c m, ?_, ?_⟩
  · rw [hc']
    simp [hreg]
  · rw [hc']
    simp [hle]

/-- C5 witness: a subscriber registered at t = 1 and last seen at t = 3 is
re-registered at t = 6 and t = 8; registered_at stays 1 and last_seen only
grows. -/
theorem register_preserves_registeredAt_witness :
    (alookup "a" (register 5 "a"
        (⟨"a", "http://a2", "prod", true, true, false, false, 0, 0⟩ : Client)
        [("a", (⟨"a", "http://a", "prod", true, false, false, false, 1, 3⟩ : Client))])
      = some { (⟨"a", "http://a2", "prod", true, true, false, false, 0, 0⟩ : Client) with
          lastSeen := 5,
          registeredAt :=
            match alookup "a"
              [("a", (⟨"a", "http://a", "prod", true, false, false, false, 1, 3⟩ : Client))] with
            | some e => e.registeredAt
            | none => 5 })
    ∧ ((alookup "a"
        ([(6, (⟨"a", "http://a2", "prod", true, true, false, false, 0, 0⟩ : Client)),
          (8, (⟨"a", "http://a3", "ppe", false, true, false, false, 0, 0⟩ : Client))].foldl
          (fun acc p => register p.1 "a" p.2 acc)
          [("a", (⟨"a", "http://a", "prod", true, false, false, false, 1, 3⟩ : Client))])).map
        (fun c' => c'.registeredAt)
      = some (⟨"a", "http://a", "prod", true, false, false, false, 1, 3⟩ : Client).registeredAt)
    ∧ ((alookup "a"
        ([(6, (⟨"a", "http://a2", "prod", true, true, false, false, 0, 0⟩ : Client)),
          (8, (⟨"a", "http://a3", "ppe", false, true, false, false, 0, 0⟩ : Client))].foldl
          (fun acc p => register p.1 "a" p.2 acc)
          [("a", (⟨"a", "http://a", "prod", true, false, false, false, 1, 3⟩ : Client))])).map
        (fun c' => decide ((⟨"a", "http://a", "prod", true, false, false, false, 1, 3⟩ : Client).lastSeen ≤ c'.lastSeen))
      = some true) :=
  register_preserves_registeredAt 5 "a"
    (⟨"a", "http://a2", "prod", true, true, false, false, 0, 0⟩ : Client)
    (⟨"a", "http://a", "prod", true, false, false, false, 1, 3⟩ : Client)
    [("a", (⟨"a", "http://a", "prod", true, false, false, false, 1, 3⟩ : Client))]
    [("a", (⟨"a", "http://a", "prod", true, false, false, false, 1, 3⟩ : Client))]
    [(6, (⟨"a", "http://a2", "prod", true, true, false, false, 0, 0⟩ : Client)),
     (8, (⟨"a", "http://a3", "ppe", false, true, false, false, 0, 0⟩ : Client))]
    (by decide) (by simp [List.chain'_cons])

end Parrot

namespace Parrot

/-! ### Helper lemmas on the reconciler -/

theorem repairKeep_eq_filter (port : String) (ws : List GatewayWebhook)
    (h : ∀ w ∈ ws, 4 ≤ w.event.length) :
    repairKeep port ws = some (ws.filter
      (fun w => w.url == expectedCallbackURL port (w.event.drop 4))) := by
  induction ws with
  | nil => rfl
  | cons w ws ih =>
      have hw : 4 ≤ w.event.length := h w (List.mem_cons_self w ws)
      have hws : ∀ x ∈ ws, 4 ≤ x.event.length := fun x hx =>
        h x (List.mem_cons_of_mem w hx)
      by_cases hc : w.url = expectedCallbackURL port (w.event.drop 4) <;>
        simp [repairKeep, goDrop4, hw, ih hws, hc, List.filter_cons]

theorem repairWebhooks_eq (port : String) (ws : List GatewayWebhook)
    (h : ∀ w ∈ ws, 4 ≤ w.event.length) :
    repairWebhooks port ws = some (
      (ws.filter (fun w => w.url == expectedCallbackURL port
        (w.event.drop 4)))
      ++ ((smsEventNames.filter (fun e =>
          !(((ws.filter (fun w => w.url == expectedCallbackURL port
              (w.event.drop 4))).map (fun w => w.event)).contains e))).map
        (fun e => { id := "", url := expectedCallbackURL port (e.drop 4),
                    event := e }))) := by
  unfold repairWebhooks
  rw [repairKeep_eq_filter port ws h]
  rfl

theorem smsEventNames_len4 (e : String) (h : e ∈ smsEventNames) :
    4 ≤ e.length := by
  simp [smsEventNames] at h
  rcases h with h | h | h | h <;> rw [h] <;> decide

theorem repairWebhooks_fixed (port : String) (l : List GatewayWebhook)
    (hlen : ∀ w ∈ l, 4 ≤ w.event.length)
    (hurl : ∀ w ∈ l, w.url = expectedCallbackURL port (w.event.drop 4))
    (hcov : ∀ e ∈ smsEventNames, e ∈ l.map (fun w => w.event)) :
    repairWebhooks port l = some l := by
  rw [repairWebhooks_eq port l hlen]
  have hfilter : l.filter (fun w => w.url == expectedCallbackURL port
      (w.event.drop 4)) = l :=
    List.filter_eq_self.mpr (fun w hw => by simp [hurl w hw])
  rw [hfilter]
  have hmissing : smsEventNames.filter (fun e =>
      !((l.map (fun w => w.event)).contains e)) = [] := by
    rw [List.filter_eq_nil_iff]
    intro e he
    simpa using hcov e he
  rw [hmissing]
  simp

/-! ### C10: the reconciler's suffix slice is partial -/

/-- C10 counterexample.  A gateway listing holding one registration whose
event name is the single character x makes the tick take the suffix slice
Event[4:] out of bounds, so the tick does not complete: the run is
modelled as none. -/
theorem repair_short_event_counterexample :
    repairWebhooks "8000"
      [{ id := "w1", url := "http://x", event := "x" }] = none := by
  rfl

/-- C10 amended.  A reconciler tick completes without a runtime error
provided every listed registration's event name is at least 4 characters
long; a shorter event name makes the suffix slice Event[4:] panic. -/
theorem repair_total_on_len4_events :
    ∀ (port : String) (ws : List GatewayWebhook),
    ws.all (fun w => decide (4 ≤ w.event.length)) = true →
    (repairWebhooks port ws).isSome = true := by
  intro port ws h
  have h' : ∀ w ∈ ws, 4 ≤ w.event.length := by
    intro w hw
    exact of_decide_eq_true (List.all_eq_true.mp h w hw)
  rw [repairWebhooks_eq port ws h']
  rfl

/-- C10 amended witness: a tick over one stray sms:received registration
completes. -/
theorem repair_total_on_len4_events_witness :
    ([{ id := "w1", url := "http://wrong", event := "sms:received" }].all
      (fun w : GatewayWebhook => decide (4 ≤ w.event.length)) = true)
    ∧ ((repairWebhooks "9000"
        [{ id := "w1", url := "http://wrong", event := "sms:received" }]).isSome
      = true) :=
  ⟨by decide,
   repair_total_on_len4_events "9000"
     [{ id := "w1", url := "http://wrong", event := "sms:received" }]
     (by decide)⟩

end Parrot

namespace Parrot

/-! ### C3: one reconciler tick re-establishes the target webhook set -/

theorem kept_plus_missing_perm (target KE : List String)
    (hKE : KE.Nodup) (hsub : ∀ e ∈ KE, e ∈ target) (htg : target.Nodup) :
    (KE ++ target.filter (fun e => !(KE.contains e))).Perm target := by
  refine (List.perm_ext_iff_of_nodup ?_ htg).mpr ?_
  · refine List.Nodup.append hKE (htg.filter _) ?_
    intro a haK haM
    have := (List.mem_filter.mp haM).2
    simp only [Bool.not_eq_true'] at this
    exact absurd (by simpa using haK) (by simpa using this)
  · intro a
    constructor
    · intro h
      rcases List.mem_append.mp h with h | h
      · exact hsub a h
      · exact (List.mem_filter.mp h).1
    · intro h
      by_cases hK : a ∈ KE
      · exact List.mem_append.mpr (Or.inl hK)
      · refine List.mem_append.mpr (Or.inr (List.mem_filter.mpr ⟨h, ?_⟩))
        simpa using hK

theorem map_pair_eq (port : String) (K : List GatewayWebhook)
    (hurl : ∀ w ∈ K, w.url = expectedCallbackURL port (w.event.drop 4)) :
    K.map (fun w => (w.event, w.url))
      = (K.map (fun w => w.event)).map
          (fun e => (e, expectedCallbackURL port (e.drop 4))) := by
  rw [List.map_map]
  refine List.map_congr_left (fun w hw => ?_)
  simp only [Function.comp_apply]
  rw [hurl w hw]

theorem repair_result_spec (port : String) (ws : List GatewayWebhook)
    (hev : ∀ w ∈ ws, w.event ∈ smsEventNames)
    (hnd : (ws.map (fun w => w.event)).Nodup) :
    ∃ final, repairWebhooks port ws = some final
      ∧ (final.map (fun w => (w.event, w.url))).Perm
          (smsEventNames.map (fun e => (e, expectedCallbackURL port
            (e.drop 4))))
      ∧ repairWebhooks port final = some final := by
  have hlen : ∀ w ∈ ws, 4 ≤ w.event.length := fun w hw =>
    smsEventNames_len4 w.event (hev w hw)
  have hurlK : ∀ w ∈ ws.filter (fun w => w.url == expectedCallbackURL port
      (w.event.drop 4)), w.url = expectedCallbackURL port (w.event.drop 4) := by
    intro w hw
    have := (List.mem_filter.mp hw).2
    simpa using this
  have hKEnd : ((ws.filter (fun w => w.url == expectedCallbackURL port
      (w.event.drop 4))).map (fun w => w.event)).Nodup :=
    hnd.sublist ((List.filter_sublist ws).map _)
  have hKEsub : ∀ e ∈ (ws.filter (fun w => w.url == expectedCallbackURL port
      (w.event.drop 4))).map (fun w => w.event), e ∈ smsEventNames := by
    intro e he
    obtain ⟨w, hwK, rfl⟩ := List.mem_map.mp he
    exact hev w (List.mem_of_mem_filter hwK)
  refine ⟨_, repairWebhooks_eq port ws hlen, ?_, ?_⟩
  · rw [List.map_append, map_pair_eq port _ hurlK]
    have htoAdd : ∀ (l : List String),
        (l.map (fun e => (⟨"", expectedCallbackURL port (e.drop 4), e⟩ :
          GatewayWebhook))).map (fun w => (w.event, w.url))
          = l.map (fun e => (e, expectedCallbackURL port (e.drop 4))) := by
      intro l
      rw [List.map_map]
      exact List.map_congr_left (fun e _ => rfl)
    rw [htoAdd, ← List.map_append]
    exact (kept_plus_missing_perm smsEventNames _ hKEnd hKEsub
      (by decide)).map _
  · refine repairWebhooks_fixed port _ ?_ ?_ ?_
    · intro w hw
      rcases List.mem_append.mp hw with h | h
      · exact hlen w (List.mem_of_mem_filter h)
      · obtain ⟨e, hme, rfl⟩ := List.mem_map.mp h
        exact smsEventNames_len4 e (List.mem_of_mem_filter hme)
    · intro w hw
      rcases List.mem_append.mp hw with h | h
      · exact hurlK w h
      · obtain ⟨e, hme, rfl⟩ := List.mem_map.mp h
        rfl
    · intro e he
      rw [List.map_append, List.map_map]
      have hcomp2 : ((fun w : GatewayWebhook => w.event) ∘
          (fun e => (⟨"", expectedCallbackURL port (e.drop 4), e⟩ :
            GatewayWebhook))) = fun e => e := rfl
      rw [hcomp2, List.map_id']
      by_cases hK : e ∈ (ws.filter (fun w => w.url == expectedCallbackURL
          port (w.event.drop 4))).map (fun w => w.event)
      · exact List.mem_append.mpr (Or.inl hK)
      · refine List.mem_append.mpr (Or.inr (List.mem_filter.mpr ⟨he, ?_⟩))
        simpa using hK

/-- C3 counterexample.  One tick need not leave exactly the four expected
entries: a stray registration with event abc:received and the URL the tick
derives from its own suffix is kept alongside the four registered entries
(five entries result), and two duplicate correct sms:received
registrations are both kept (five entries again). -/
theorem reconciler_not_exactly_four_counterexample :
    ((repairWebhooks "8000"
        [(⟨"w1", "http://127.0.0.1:8000/webhook/received", "abc:received"⟩ :
          GatewayWebhook)]).map List.length = some 5)
    ∧ ((repairWebhooks "8000"
        [(⟨"a", "http://127.0.0.1:8000/webhook/received", "sms:received"⟩ :
          GatewayWebhook),
         (⟨"b", "http://127.0.0.1:8000/webhook/received", "sms:received"⟩ :
          GatewayWebhook)]).map List.length = some 5) := by
  exact ⟨rfl, rfl⟩

/-- C3 amended.  For every initial gateway listing whose registrations
carry pairwise distinct events drawn from the four sms wire names, one
reconciler tick (all gateway calls succeeding) completes and leaves a
registration set whose (event, url) pairs are exactly the four expected
entries, one per kind with URL http://127.0.0.1:port/webhook/kind, and a
further tick leaves the set unchanged. -/
theorem reconciler_restores_target_set :
    ∀ (port : String) (ws : List GatewayWebhook),
    ws.all (fun w => smsEventNames.contains w.event) = true →
    (ws.map (fun w => w.event)).Nodup →
    ((repairWebhooks port ws).isSome = true)
    ∧ (((repairWebhooks port ws).getD []).map
        (fun w => (w.event, w.url))).Perm
        (smsEventNames.map (fun e => (e, expectedCallbackURL port
          (e.drop 4))))
    ∧ (repairWebhooks port ((repairWebhooks port ws).getD [])
        = repairWebhooks port ws) := by
  intro port ws hev hnd
  have hev' : ∀ w ∈ ws, w.event ∈ smsEventNames := by
    intro w hw
    simpa using List.all_eq_true.mp hev w hw
  obtain ⟨final, h1, h2, h3⟩ := repair_result_spec port ws hev' hnd
  refine ⟨by rw [h1]; rfl, ?_, ?_⟩
  · rw [h1]
    simpa using h2
  · rw [h1]
    simpa using h3

/-- C3 amended witness: the spec's S5 scenario, a single stray
registration with a wrong URL; the tick deletes it and registers the four
expected entries, and a second tick is a no-op. -/
theorem reconciler_restores_target_set_witness :
    (([(⟨"w1", "http://wrong", "sms:received"⟩ : GatewayWebhook)].all
      (fun w => smsEventNames.contains w.event)) = true)
    ∧ (([(⟨"w1", "http://wrong", "sms:received"⟩ : GatewayWebhook)].map
        (fun w => w.event)).Nodup)
    ∧ ((repairWebhooks "8000"
        [(⟨"w1", "http://wrong", "sms:received"⟩ :
          GatewayWebhook)]).isSome = true)
    ∧ (((repairWebhooks "8000"
        [(⟨"w1", "http://wrong", "sms:received"⟩ :
          GatewayWebhook)]).getD []).map
        (fun w => (w.event, w.url))).Perm
        (smsEventNames.map (fun e => (e, expectedCallbackURL "8000"
          (e.drop 4))))
    ∧ (repairWebhooks "8000"
        ((repairWebhooks "8000"
          [(⟨"w1", "http://wrong", "sms:received"⟩ :
            GatewayWebhook)]).getD [])
      = repairWebhooks "8000"
          [(⟨"w1", "http://wrong", "sms:received"⟩ : GatewayWebhook)]) := by
  have h := reconciler_restores_target_set "8000"
    [(⟨"w1", "http://wrong", "sms:received"⟩ : GatewayWebhook)]
    (by decide) (by decide)
  exact ⟨by decide, by decide, h.1, h.2.1, h.2.2⟩

end Parrot
